import Mathlib

/-!
Shallow embedding of the CAN diagnostic scan engine of `src/main.cpp`
(OBD2 kiosk): DTC decoding (`parseAndStoreDTC`), baud-rate detection
(`autoDetectCANBaudRate`), ECU discovery (`probeOBD2ECUsWithTimeout`),
DTC collection (`scanAllDTCs`) and the orchestrator
(`performDiagnosticScan`).

Hardware interaction (`twai_transmit` / `twai_receive` / driver
reconfiguration) is modelled by explicit environments: each receive poll is
an event carrying the wall-clock duration the call consumed and the frame it
returned (if any); transmit success and reconfigure success are booleans
supplied by the environment.  Wall-clock time (`millis()` deltas) is modelled
by accumulating those durations.
-/

namespace OBD2Kiosk

/-- A received CAN frame: arbitration identifier and payload bytes
(`data_length_code` is the payload length). -/
structure Frame where
  ident : Nat
  data : List Nat
  deriving DecidableEq

/-- `struct FaultCode` from main.cpp. -/
structure FaultCode where
  code : String
  system : String
  isPending : Bool
  ecuId : Nat
  deriving DecidableEq

/-- `TOTAL_SCAN_TIMEOUT_MS = 45 * 1000` (main.cpp line 70). -/
def TOTAL_SCAN_TIMEOUT_MS : Nat := 45 * 1000

/-- `BAUD_DETECT_TIMEOUT_MS = 2000` (main.cpp line 71). -/
def BAUD_DETECT_TIMEOUT_MS : Nat := 2000

/-- `TRAFFIC_LISTEN_TIMEOUT_MS = 5000` (main.cpp line 72). -/
def TRAFFIC_LISTEN_TIMEOUT_MS : Nat := 5000

/-- `ECU_PROBE_TIMEOUT_MS = 15000` (main.cpp line 73). -/
def ECU_PROBE_TIMEOUT_MS : Nat := 15000

/-- `OBD2_ADDRESSES` (main.cpp lines 97-100). -/
def OBD2_ADDRESSES : List Nat :=
  [0x7E0, 0x7E1, 0x7E2, 0x7E3, 0x7E4, 0x7E5, 0x7E6, 0x7E7,
   0x7E8, 0x7E9, 0x7EA, 0x7EB, 0x7EC, 0x7ED, 0x7EE, 0x7EF]

/-- `NUM_ECUS` (main.cpp line 101): 16. -/
def NUM_ECUS : Nat := OBD2_ADDRESSES.length

/-! ## DTC decoding (`parseAndStoreDTC`, main.cpp lines 861-893) -/

/-- One lowercase hexadecimal digit, as produced by Arduino
`String(n, HEX)`. -/
def hexCharLower (n : Nat) : Char :=
  if n < 10 then Char.ofNat (48 + n) else Char.ofNat (87 + n)

/-- Hex digits of `n`, least significant first, with explicit fuel (the
recursion divides by 16 each step, so fuel `n + 1` always suffices). -/
def natToHexRevFuel : Nat → Nat → List Char
  | 0, _ => []
  | fuel + 1, n =>
    if n < 16 then [hexCharLower n]
    else hexCharLower (n % 16) :: natToHexRevFuel fuel (n / 16)

/-- Arduino `String(n, HEX)`: lowercase hex digits of `n`, most significant
first, no leading zeros (`"0"` for `n = 0`). -/
def hexStringLower (n : Nat) : List Char :=
  (natToHexRevFuel (n + 1) n).reverse

/-- The `while (dtcCode.length() < 5)` padding loop of main.cpp lines
879-881, with explicit fuel: each iteration replaces `s` by
`s.substring(0,1) + "0" + s.substring(1)`.  Every iteration grows the string
by one character, so fuel 5 makes `padFuel 5` equal to the unbounded source
loop on every input. -/
def padFuel : Nat → List Char → List Char
  | 0, s => s
  | fuel + 1, s =>
    if s.length < 5 then padFuel fuel (s.take 1 ++ '0' :: s.drop 1) else s

/-- The padding step applied by `parseAndStoreDTC` to reach a 5-character
code. -/
def padDTCCode (s : List Char) : List Char := padFuel 5 s

/-- Category letter from the top two bits of the first DTC byte
(main.cpp lines 869-872): default `'P'`, then the three explicit tests. -/
def dtcCategory (b1 : Nat) : Char :=
  if b1 &&& 0xC0 = 0x40 then 'C'
  else if b1 &&& 0xC0 = 0x80 then 'B'
  else if b1 &&& 0xC0 = 0xC0 then 'U'
  else 'P'

/-- The 14-bit DTC numeric value (main.cpp line 874). -/
def dtcCodeNumber (b1 b2 : Nat) : Nat := ((b1 &&& 0x3F) <<< 8) ||| b2

/-- The rendered DTC string (main.cpp lines 875-881): category letter
prepended to the lowercase hex value, the whole string upper-cased, then
padded to 5 characters by the insert-after-first-character loop. -/
def renderDTCCode (b1 b2 : Nat) : String :=
  String.mk (padDTCCode ((dtcCategory b1 :: hexStringLower (dtcCodeNumber b1 b2)).map Char.toUpper))

/-- The `FaultCode` record built at main.cpp lines 883-887. -/
def mkFaultCode (b1 b2 ecuId : Nat) : FaultCode :=
  { code := renderDTCCode b1 b2
    system := "ECU 0x" ++ String.mk (hexStringLower ecuId)
    isPending := false
    ecuId := ecuId }

/-- One byte pair of a DTC payload (main.cpp lines 863-889): both bytes zero
produce no code, otherwise one `FaultCode`. -/
def decodePair (b1 b2 ecuId : Nat) : Option FaultCode :=
  if b1 = 0 ∧ b2 = 0 then none else some (mkFaultCode b1 b2 ecuId)

/-- The `for (int i = 2; i < len - 1; i += 2)` loop of `parseAndStoreDTC`,
with fuel (the loop advances `i` by 2 each iteration, so fuel `len`
suffices from `i = 2`).  `i < len - 1` on C ints equals `i + 1 < len`. -/
def parseDTCGo (data : List Nat) (len ecuId : Nat) : Nat → Nat → List FaultCode
  | 0, _ => []
  | fuel + 1, i =>
    if i + 1 < len then
      (decodePair (data.getD i 0) (data.getD (i + 1) 0) ecuId).toList
        ++ parseDTCGo data len ecuId fuel (i + 2)
    else []

/-- `parseAndStoreDTC(data, len, ecuId)` (main.cpp lines 861-893), returning
the list of fault codes it appends to `detectedCodes`. -/
def parseAndStoreDTC (data : List Nat) (len ecuId : Nat) : List FaultCode :=
  parseDTCGo data len ecuId len 2

/-- The byte offsets the `parseAndStoreDTC` loop visits, mirrored with the
same fuel pattern. -/
def dtcOffsetsGo (len : Nat) : Nat → Nat → List Nat
  | 0, _ => []
  | fuel + 1, i => if i + 1 < len then i :: dtcOffsetsGo len fuel (i + 2) else []

/-- Offsets visited for a payload of length `len`: 2, 4, 6, ... while
`i + 1 < len`. -/
def dtcOffsets (len : Nat) : List Nat := dtcOffsetsGo len len 2

/-- Modelled from the spec: the conventional rendering the padding question
of spec section 4.5 compares against — the category letter followed by the
value's 4-hex-digit left-zero-padded upper-case representation. -/
def specConventionalRender (b1 b2 : Nat) : String :=
  String.mk (dtcCategory b1 ::
    (List.replicate (4 - ((hexStringLower (dtcCodeNumber b1 b2)).map Char.toUpper).length) '0'
      ++ (hexStringLower (dtcCodeNumber b1 b2)).map Char.toUpper))

/-! ### Helper lemmas on DTC decoding -/

theorem natToHexRevFuel_ne_nil (fuel n : Nat) (h : 0 < fuel) :
    natToHexRevFuel fuel n ≠ [] := by
  cases fuel with
  | zero => omega
  | succ f =>
    unfold natToHexRevFuel
    split <;> simp

theorem hexStringLower_ne_nil (n : Nat) : hexStringLower n ≠ [] := by
  unfold hexStringLower
  intro h
  exact natToHexRevFuel_ne_nil (n + 1) n (by omega) (by simpa using h)

/-- The insert-a-zero-after-the-first-character loop is extensionally the
conventional left-zero-pad of the digit part to width 4. -/
theorem padDTCCode_eq_replicate (c : Char) (h : List Char) (hne : h ≠ []) :
    padDTCCode (c :: h) = c :: (List.replicate (4 - h.length) '0' ++ h) := by
  match h with
  | [a] => rfl
  | [a, b] => rfl
  | [a, b, d] => rfl
  | a :: b :: d :: e :: t =>
    simp only [padDTCCode, padFuel, List.length_cons]
    rw [if_neg (by omega)]
    simp

/-- `Char.toUpper` fixes the four category letters. -/
theorem toUpper_dtcCategory (b1 : Nat) :
    Char.toUpper (dtcCategory b1) = dtcCategory b1 := by
  unfold dtcCategory
  split
  · decide
  · split
    · decide
    · split <;> decide

/-- The rendered DTC code coincides with the conventional 4-hex-digit
left-zero-padded rendering, for every byte pair. -/
theorem renderDTCCode_eq_conventional (b1 b2 : Nat) :
    renderDTCCode b1 b2 = specConventionalRender b1 b2 := by
  unfold renderDTCCode specConventionalRender
  rw [List.map_cons, toUpper_dtcCategory,
    padDTCCode_eq_replicate _ _ (by
      simp only [ne_eq, List.map_eq_nil_iff]
      exact hexStringLower_ne_nil _)]

theorem parseDTCGo_eq_filterMap (data : List Nat) (len ecuId : Nat) :
    ∀ fuel i, parseDTCGo data len ecuId fuel i
      = (dtcOffsetsGo len fuel i).filterMap
          (fun j => decodePair (data.getD j 0) (data.getD (j + 1) 0) ecuId) := by
  intro fuel
  induction fuel with
  | zero => intro i; rfl
  | succ f ih =>
    intro i
    simp only [parseDTCGo, dtcOffsetsGo]
    split
    · rw [List.filterMap_cons, ih (i + 2)]
      cases hd : decodePair (data.getD i 0) (data.getD (i + 1) 0) ecuId <;> simp [hd]
    · simp

theorem dtcOffsetsGo_mem (len : Nat) :
    ∀ fuel i j, len ≤ i + 2 * fuel + 1 → i % 2 = 0 →
      (j ∈ dtcOffsetsGo len fuel i ↔ i ≤ j ∧ j % 2 = 0 ∧ j + 1 < len) := by
  intro fuel
  induction fuel with
  | zero =>
    intro i j hfuel hpar
    simp only [dtcOffsetsGo, List.not_mem_nil, false_iff]
    omega
  | succ f ih =>
    intro i j hfuel hpar
    simp only [dtcOffsetsGo]
    split
    · simp only [List.mem_cons, ih (i + 2) j (by omega) (by omega)]
      omega
    · simp only [List.not_mem_nil, false_iff]
      omega

/-! ## Baud-rate detection (`autoDetectCANBaudRate`, main.cpp lines 896-927,
and `reinitializeCAN`, lines 929-960) -/

/-- One `twai_receive(&message, pdMS_TO_TICKS(100))` poll inside the
baud-detection window: the duration the call consumed and whether it
returned a frame. -/
structure PollEv where
  dur : Nat
  got : Bool
  deriving DecidableEq

/-- Environment of one baud candidate: whether `reinitializeCAN` succeeded,
and the sequence of receive polls the window would observe. -/
structure CandEnv where
  reinitOk : Bool
  polls : List PollEv

/-- The `while (millis() - startTime < BAUD_DETECT_TIMEOUT_MS)` listen loop
(main.cpp lines 912-921), returning whether 3 frames were seen (early exit on
the third) together with the elapsed time consumed.  An exhausted poll trace
means no further frame ever arrives, so the loop just runs the window out. -/
def pollWindow : List PollEv → Nat → Nat → Bool × Nat
  | [], t, _ => (false, max t BAUD_DETECT_TIMEOUT_MS)
  | ev :: rest, t, cnt =>
    if BAUD_DETECT_TIMEOUT_MS ≤ t then (false, t)
    else if ev.got then
      if 3 ≤ cnt + 1 then (true, t + ev.dur)
      else pollWindow rest (t + ev.dur) (cnt + 1)
    else pollWindow rest (t + ev.dur) cnt

/-- One candidate attempt: `reinitializeCAN(baudRate)` followed, on success,
by the listen window (main.cpp lines 907-923).  Returns (detected, elapsed).
A reconfigure failure aborts only this candidate. -/
def tryBaud (e : CandEnv) : Bool × Nat :=
  if e.reinitOk then pollWindow e.polls 0 0 else (false, 0)

/-- The fixed candidate order `{500000, 250000, 125000, 1000000}`
(main.cpp line 900). -/
def baudCandidates : List Nat := [500000, 250000, 125000, 1000000]

/-- The `for` loop over candidates (main.cpp lines 903-924), accumulating
elapsed time and returning the first detected candidate. -/
def detectFrom (env : Nat → CandEnv) : List Nat → Nat → Nat × Nat
  | [], acc => (0, acc)
  | b :: rest, acc =>
    let r := tryBaud (env b)
    if r.1 then (b, acc + r.2) else detectFrom env rest (acc + r.2)

/-- `autoDetectCANBaudRate()` (main.cpp lines 896-927): the detected baud
rate (0 when no candidate saw 3 frames) and the time the phase consumed. -/
def autoDetectCANBaudRate (env : Nat → CandEnv) : Nat × Nat :=
  detectFrom env baudCandidates 0

/-! ### Helper lemmas on baud detection -/

/-- Once the window has returned `true`, any further polls are irrelevant:
the result (and the time consumed) is that of the prefix alone. -/
theorem pollWindow_append_of_true (suf : List PollEv) :
    ∀ pre t cnt, (pollWindow pre t cnt).1 = true →
      pollWindow (pre ++ suf) t cnt = pollWindow pre t cnt := by
  intro pre
  induction pre with
  | nil => intro t cnt h; simp [pollWindow] at h
  | cons ev rest ih =>
    intro t cnt h
    by_cases h1 : BAUD_DETECT_TIMEOUT_MS ≤ t
    · simp [pollWindow, h1] at h
    · by_cases h2 : ev.got = true
      · by_cases h3 : 3 ≤ cnt + 1
        · simp [pollWindow, h1, h2, h3]
        · simp only [pollWindow, List.cons_append, if_neg h1, if_pos h2, if_neg h3] at h ⊢
          exact ih _ _ h
      · simp only [pollWindow, List.cons_append, if_neg h1, if_neg h2] at h ⊢
        exact ih _ _ h

/-- A `true` window saw at least 3 frames among its polls. -/
theorem pollWindow_true_count :
    ∀ evs t cnt, (pollWindow evs t cnt).1 = true →
      3 ≤ cnt + evs.countP (fun ev => ev.got) := by
  intro evs
  induction evs with
  | nil => intro t cnt h; simp [pollWindow] at h
  | cons ev rest ih =>
    intro t cnt h
    by_cases h1 : BAUD_DETECT_TIMEOUT_MS ≤ t
    · simp [pollWindow, h1] at h
    · by_cases h2 : ev.got = true
      · by_cases h3 : 3 ≤ cnt + 1
        · simp [List.countP_cons, h2]
          omega
        · simp only [pollWindow, if_neg h1, if_pos h2, if_neg h3] at h
          have := ih _ _ h
          simp [List.countP_cons, h2]
          omega
      · simp only [pollWindow, if_neg h1, if_neg h2] at h
        have := ih _ _ h
        simp [List.countP_cons, h2]
        omega

/-! ## ECU discovery (`probeOBD2ECUsWithTimeout`, main.cpp lines 1070-1136) -/

/-- One `twai_receive` poll during a response wait: duration consumed and the
frame returned, if any. -/
structure RxEv where
  dur : Nat
  frame : Option Frame
  deriving DecidableEq

/-- Environment of one address probe: whether `twai_transmit` succeeded, the
time it consumed, and the receive polls of the response wait. -/
structure ProbeEnv where
  txOk : Bool
  txDur : Nat
  events : List RxEv

/-- The qualifying-response test of main.cpp lines 1113-1114:
`response.identifier == ecuAddr + 8 || (0x7E8 <= id && id <= 0x7EF)`. -/
def probeQualifies (ecuAddr ident : Nat) : Bool :=
  ident = ecuAddr + 8 || (0x7E8 ≤ ident && ident ≤ 0x7EF)

/-- The `while (millis() - ecuStart < 800)` response wait (main.cpp lines
1110-1129): first qualifying identifier, plus the time consumed.  An
exhausted trace means no further frame arrives and the loop runs the
window out. -/
def waitForProbeResp (ecuAddr : Nat) : List RxEv → Nat → Option Nat × Nat
  | [], t => (none, max t 800)
  | ev :: rest, t =>
    if 800 ≤ t then (none, t)
    else
      match ev.frame with
      | some f =>
        if probeQualifies ecuAddr f.ident then (some f.ident, t + ev.dur)
        else waitForProbeResp ecuAddr rest (t + ev.dur)
      | none => waitForProbeResp ecuAddr rest (t + ev.dur)

/-- One address probe (main.cpp lines 1092-1132): transmit, then on success
wait for a qualifying response; a trailing `delay(50)` separates probes.
Returns the recorded identifier (if any) and the time consumed. -/
def probeStep (e : ProbeEnv) (ecuAddr : Nat) : Option Nat × Nat :=
  if e.txOk then
    ((waitForProbeResp ecuAddr e.events 0).1,
      e.txDur + (waitForProbeResp ecuAddr e.events 0).2 + 50)
  else (none, e.txDur + 50)

/-- The (request, response) pair address-index `i` would record, ghost-paired
with the probed address (the source stores only `response.identifier` in
`activeECUs`). -/
def probeFound (env : Nat → ProbeEnv) (i : Nat) : Option (Nat × Nat) :=
  (probeStep (env i) (OBD2_ADDRESSES.getD i 0)).1.map
    (fun ident => (OBD2_ADDRESSES.getD i 0, ident))

/-- Elapsed time after the first `n` address probes. -/
def probeElapsed (env : Nat → ProbeEnv) : Nat → Nat
  | 0 => 0
  | n + 1 => probeElapsed env n + (probeStep (env n) (OBD2_ADDRESSES.getD n 0)).2

/-- The progress message emitted every fourth probe (main.cpp line 1089). -/
def probeProgressMsg (i : Nat) : String :=
  "Checking ECU " ++ toString (i + 1) ++ "/" ++ toString NUM_ECUS

/-- Result of the discovery phase: recorded (request, response) pairs in
insertion order, the index at which probing stopped, elapsed time, and the
progress events emitted. -/
structure ProbeResult where
  pairs : List (Nat × Nat)
  probed : Nat
  dur : Nat
  progress : List (String × Nat)
  deriving DecidableEq

/-- The probe `for` loop (main.cpp lines 1075-1133) with fuel
`NUM_ECUS - i`: at each index first the 15 s budget check
(`millis() - startTime > timeout_ms` breaks), then the every-fourth-probe
progress update at `50 + i * 25 / NUM_ECUS`, then the probe itself.  The
global accumulation into `activeECUs` is rendered functionally: each call
returns the records of the iterations it performs, in order. -/
def probeLoopGo (env : Nat → ProbeEnv) (timeout_ms : Nat) :
    Nat → Nat → Nat → ProbeResult
  | 0, i, t => ⟨[], i, t, []⟩
  | fuel + 1, i, t =>
    if timeout_ms < t then ⟨[], i, t, []⟩
    else
      let r := probeLoopGo env timeout_ms fuel (i + 1)
        (t + (probeStep (env i) (OBD2_ADDRESSES.getD i 0)).2)
      ⟨(probeFound env i).toList ++ r.pairs, r.probed, r.dur,
        (if i % 4 = 0 then [(probeProgressMsg i, 50 + i * 25 / NUM_ECUS)] else [])
          ++ r.progress⟩

/-- `probeOBD2ECUsWithTimeout(timeout_ms)` (main.cpp lines 1070-1136). -/
def probeOBD2ECUsWithTimeout (env : Nat → ProbeEnv) (timeout_ms : Nat) : ProbeResult :=
  probeLoopGo env timeout_ms NUM_ECUS 0 0

/-! ### Helper lemmas on the probe loop -/

theorem waitForProbeResp_qualifies (ecuAddr : Nat) :
    ∀ evs t ident, (waitForProbeResp ecuAddr evs t).1 = some ident →
      probeQualifies ecuAddr ident = true := by
  intro evs
  induction evs with
  | nil => intro t ident h; simp [waitForProbeResp] at h
  | cons ev rest ih =>
    intro t ident h
    by_cases h1 : 800 ≤ t
    · simp [waitForProbeResp, h1] at h
    · simp only [waitForProbeResp, if_neg h1] at h
      cases hf : ev.frame with
      | some f =>
        simp only [hf] at h
        by_cases h2 : probeQualifies ecuAddr f.ident = true
        · rw [if_pos h2] at h
          simp only at h
          cases h
          exact h2
        · rw [if_neg h2] at h
          exact ih _ _ h
      | none =>
        simp only [hf] at h
        exact ih _ _ h

theorem probeFound_qualifies (env : Nat → ProbeEnv) (i req resp : Nat)
    (h : probeFound env i = some (req, resp)) :
    req = OBD2_ADDRESSES.getD i 0 ∧ probeQualifies req resp = true := by
  unfold probeFound probeStep at h
  by_cases ht : (env i).txOk = true
  · rw [if_pos ht] at h
    simp only [Option.map_eq_some'] at h
    obtain ⟨ident, hw, heq⟩ := h
    simp only [Prod.mk.injEq] at heq
    obtain ⟨h1, h2⟩ := heq
    subst h1
    subst h2
    exact ⟨rfl, waitForProbeResp_qualifies _ _ _ _ hw⟩
  · rw [if_neg ht] at h
    simp at h

theorem probeLoopGo_probed_ge (env : Nat → ProbeEnv) (timeout_ms : Nat) :
    ∀ fuel i t, i ≤ (probeLoopGo env timeout_ms fuel i t).probed := by
  intro fuel
  induction fuel with
  | zero => intro i t; exact Nat.le_refl i
  | succ f ih =>
    intro i t
    simp only [probeLoopGo]
    split
    · exact Nat.le_refl i
    · exact Nat.le_trans (Nat.le_succ i) (ih (i + 1) _)

theorem probeLoopGo_probed_le (env : Nat → ProbeEnv) (timeout_ms : Nat) :
    ∀ fuel i t, (probeLoopGo env timeout_ms fuel i t).probed ≤ i + fuel := by
  intro fuel
  induction fuel with
  | zero => intro i t; exact Nat.le_refl i
  | succ f ih =>
    intro i t
    simp only [probeLoopGo]
    split
    · show i ≤ i + (f + 1)
      omega
    · show (probeLoopGo env timeout_ms f (i + 1) _).probed ≤ i + (f + 1)
      have := ih (i + 1) (t + (probeStep (env i) (OBD2_ADDRESSES.getD i 0)).2)
      omega

/-- The pairs the loop records are exactly the records of the probed
indices, in index order. -/
theorem probeLoopGo_pairs (env : Nat → ProbeEnv) (timeout_ms : Nat) :
    ∀ fuel i t,
      (probeLoopGo env timeout_ms fuel i t).pairs
        = (List.range' i ((probeLoopGo env timeout_ms fuel i t).probed - i)).filterMap
            (probeFound env) := by
  intro fuel
  induction fuel with
  | zero => intro i t; simp [probeLoopGo]
  | succ f ih =>
    intro i t
    simp only [probeLoopGo]
    split
    · simp
    · simp only
      have hge : i + 1 ≤ (probeLoopGo env timeout_ms f (i + 1)
          (t + (probeStep (env i) (OBD2_ADDRESSES.getD i 0)).2)).probed :=
        probeLoopGo_probed_ge env timeout_ms f (i + 1) _
      have hn : (probeLoopGo env timeout_ms f (i + 1)
            (t + (probeStep (env i) (OBD2_ADDRESSES.getD i 0)).2)).probed - i
          = ((probeLoopGo env timeout_ms f (i + 1)
            (t + (probeStep (env i) (OBD2_ADDRESSES.getD i 0)).2)).probed - (i + 1)) + 1 := by
        omega
      rw [hn, List.range'_succ, List.filterMap_cons, ih (i + 1)]
      cases hfd : probeFound env i <;> simp [hfd]

/-- The loop's elapsed time equals `probeElapsed` at the stopping index when
started in a consistent state. -/
theorem probeLoopGo_dur (env : Nat → ProbeEnv) (timeout_ms : Nat) :
    ∀ fuel i,
      (probeLoopGo env timeout_ms fuel i (probeElapsed env i)).dur
        = probeElapsed env (probeLoopGo env timeout_ms fuel i (probeElapsed env i)).probed := by
  intro fuel
  induction fuel with
  | zero => intro i; rfl
  | succ f ih =>
    intro i
    simp only [probeLoopGo]
    split
    · rfl
    · simp only
      have hstep : probeElapsed env i + (probeStep (env i) (OBD2_ADDRESSES.getD i 0)).2
          = probeElapsed env (i + 1) := rfl
      rw [hstep]
      exact ih (i + 1)

/-- Deadline bookkeeping: every probed index passed the budget check, and an
early stop means the budget was exceeded there. -/
theorem probeLoopGo_checks (env : Nat → ProbeEnv) (timeout_ms : Nat) :
    ∀ fuel i,
      (∀ j, i ≤ j →
        j < (probeLoopGo env timeout_ms fuel i (probeElapsed env i)).probed →
        probeElapsed env j ≤ timeout_ms)
      ∧ ((probeLoopGo env timeout_ms fuel i (probeElapsed env i)).probed < i + fuel →
        timeout_ms < probeElapsed env
          (probeLoopGo env timeout_ms fuel i (probeElapsed env i)).probed) := by
  intro fuel
  induction fuel with
  | zero =>
    intro i
    constructor
    · intro j h1 h2
      have : (probeLoopGo env timeout_ms 0 i (probeElapsed env i)).probed = i := rfl
      omega
    · intro h
      have : (probeLoopGo env timeout_ms 0 i (probeElapsed env i)).probed = i := rfl
      omega
  | succ f ih =>
    intro i
    by_cases h1 : timeout_ms < probeElapsed env i
    · simp only [probeLoopGo, if_pos h1]
      constructor
      · intro j hj1 hj2
        have hj2' : j < i := hj2
        omega
      · intro _
        exact h1
    · simp only [probeLoopGo, if_neg h1]
      have hstep : probeElapsed env i + (probeStep (env i) (OBD2_ADDRESSES.getD i 0)).2
          = probeElapsed env (i + 1) := rfl
      rw [hstep]
      obtain ⟨iha, ihb⟩ := ih (i + 1)
      constructor
      · intro j hj1 hj2
        have hj2' : j < (probeLoopGo env timeout_ms f (i + 1) (probeElapsed env (i + 1))).probed :=
          hj2
        rcases Nat.eq_or_lt_of_le hj1 with heq | hlt
        · rw [← heq]
          omega
        · exact iha j hlt hj2'
      · intro h
        have h' : (probeLoopGo env timeout_ms f (i + 1) (probeElapsed env (i + 1))).probed
            < i + (f + 1) := h
        show timeout_ms < probeElapsed env
          (probeLoopGo env timeout_ms f (i + 1) (probeElapsed env (i + 1))).probed
        exact ihb (by omega)

/-- The loop result depends only on the environment at the indices actually
probed: no address beyond the stopping index is consulted. -/
theorem probeLoopGo_env_congr (env env2 : Nat → ProbeEnv) (timeout_ms : Nat) :
    ∀ fuel i t,
      (∀ j, i ≤ j → j < (probeLoopGo env timeout_ms fuel i t).probed → env2 j = env j) →
      probeLoopGo env2 timeout_ms fuel i t = probeLoopGo env timeout_ms fuel i t := by
  intro fuel
  induction fuel with
  | zero => intro i t _; rfl
  | succ f ih =>
    intro i t hagree
    by_cases h1 : timeout_ms < t
    · simp only [probeLoopGo, if_pos h1]
    · have hprobed : i < (probeLoopGo env timeout_ms (f + 1) i t).probed := by
        simp only [probeLoopGo, if_neg h1]
        exact Nat.lt_of_lt_of_le (Nat.lt_succ_self i)
          (probeLoopGo_probed_ge env timeout_ms f (i + 1) _)
      have henvi : env2 i = env i := hagree i (Nat.le_refl i) hprobed
      have hfd : probeFound env2 i = probeFound env i := by
        unfold probeFound probeStep
        rw [henvi]
      have hrec : probeLoopGo env2 timeout_ms f (i + 1)
            (t + (probeStep (env i) (OBD2_ADDRESSES.getD i 0)).2)
          = probeLoopGo env timeout_ms f (i + 1)
            (t + (probeStep (env i) (OBD2_ADDRESSES.getD i 0)).2) := by
        apply ih
        intro j hj1 hj2
        refine hagree j (by omega) ?_
        simp only [probeLoopGo, if_neg h1]
        exact hj2
      simp only [probeLoopGo, if_neg h1, henvi, hfd, hrec]

/-- Every progress event the loop emits is an every-fourth-index event at
percentage `50 + k * 25 / NUM_ECUS` for a probed index `k`. -/
theorem probeLoopGo_progress (env : Nat → ProbeEnv) (timeout_ms : Nat) :
    ∀ fuel i t,
      i + fuel ≤ NUM_ECUS →
      ∀ ev ∈ (probeLoopGo env timeout_ms fuel i t).progress,
        ∃ k, k < NUM_ECUS ∧ k % 4 = 0 ∧
          ev = (probeProgressMsg k, 50 + k * 25 / NUM_ECUS) := by
  intro fuel
  induction fuel with
  | zero => intro i t _ ev hev; simp [probeLoopGo] at hev
  | succ f ih =>
    intro i t hle ev hev
    simp only [probeLoopGo] at hev
    split at hev
    · simp at hev
    · simp only [List.mem_append] at hev
      rcases hev with hin | hin
      · by_cases h4 : i % 4 = 0
        · rw [if_pos h4] at hin
          simp only [List.mem_singleton] at hin
          exact ⟨i, by omega, h4, hin⟩
        · rw [if_neg h4] at hin
          simp at hin
      · exact ih (i + 1) _ (by omega) ev hin

/-- The request components of the recorded pairs form a sublist of the probed
address table. -/
theorem filterMap_probeFound_sublist (env : Nat → ProbeEnv) :
    ∀ n i, i + n ≤ NUM_ECUS →
      List.Sublist (((List.range' i n).filterMap (probeFound env)).map Prod.fst)
        (OBD2_ADDRESSES.drop i) := by
  intro n
  induction n with
  | zero => intro i _; simp
  | succ m ih =>
    intro i hle
    have hi : i < OBD2_ADDRESSES.length := by
      have hnum : NUM_ECUS = OBD2_ADDRESSES.length := rfl
      omega
    have hdrop : OBD2_ADDRESSES.drop i
        = OBD2_ADDRESSES[i] :: OBD2_ADDRESSES.drop (i + 1) :=
      List.drop_eq_getElem_cons hi
    have hgetD : OBD2_ADDRESSES.getD i 0 = OBD2_ADDRESSES[i] :=
      List.getD_eq_getElem _ _ hi
    rw [List.range'_succ, List.filterMap_cons, hdrop]
    cases hfd : probeFound env i with
    | none => exact List.Sublist.cons _ (ih (i + 1) (by omega))
    | some p =>
      have hfst : p.1 = OBD2_ADDRESSES[i] := by
        obtain ⟨req, resp⟩ := p
        have := (probeFound_qualifies env i req resp hfd).1
        simp only at this ⊢
        rw [← hgetD]
        exact this
      simp only [List.map_cons, hfst]
      exact List.Sublist.cons₂ _ (ih (i + 1) (by omega))

/-! ## DTC collection (`scanAllDTCs`, main.cpp lines 1166-1221) -/

/-- Environment of one ECU's code-retrieval exchange: whether the Mode 03
transmit succeeded and the receive polls of the response wait. -/
structure DTCEnv where
  txOk : Bool
  events : List RxEv

/-- The `while (millis() - start < 1000)` wait of main.cpp lines 1200-1216:
the first frame whose identifier equals the ECU's response identifier, if one
arrives within the window; non-matching frames are consumed and ignored. -/
def waitDTCResp (ecuId : Nat) : List RxEv → Nat → Option Frame
  | [], _ => none
  | ev :: rest, t =>
    if 1000 ≤ t then none
    else
      match ev.frame with
      | some f => if f.ident = ecuId then some f else waitDTCResp ecuId rest (t + ev.dur)
      | none => waitDTCResp ecuId rest (t + ev.dur)

/-- One ECU's DTC scan (main.cpp lines 1174-1219): transmit Mode 03, wait for
a response with the ECU's own identifier, decode when the payload length
exceeds 2.  No response, a failed transmit, or a short payload yield zero
codes. -/
def scanOneECU (e : DTCEnv) (ecuId : Nat) : List FaultCode :=
  if e.txOk then
    match waitDTCResp ecuId e.events 0 with
    | some f =>
      if 2 < f.data.length then parseAndStoreDTC f.data f.data.length ecuId else []
    | none => []
  else []

/-- The loop of `scanAllDTCs` over the active-ECU list, the environment
indexed by position. -/
def scanDTCsFrom (env : Nat → DTCEnv) : Nat → List Nat → List FaultCode
  | _, [] => []
  | i, ecuId :: rest => scanOneECU (env i) ecuId ++ scanDTCsFrom env (i + 1) rest

/-- `scanAllDTCs()` (main.cpp lines 1166-1221): the fault codes collected
over all active ECUs (the early return on an empty list yields the same
empty result). -/
def scanAllDTCs (env : Nat → DTCEnv) (activeECUs : List Nat) : List FaultCode :=
  scanDTCsFrom env 0 activeECUs

/-! ### Helper lemmas on DTC collection -/

theorem waitDTCResp_ident (ecuId : Nat) :
    ∀ evs t f, waitDTCResp ecuId evs t = some f → f.ident = ecuId := by
  intro evs
  induction evs with
  | nil => intro t f h; simp [waitDTCResp] at h
  | cons ev rest ih =>
    intro t f h
    by_cases h1 : 1000 ≤ t
    · simp [waitDTCResp, h1] at h
    · simp only [waitDTCResp, if_neg h1] at h
      cases hf : ev.frame with
      | some g =>
        simp only [hf] at h
        by_cases h2 : g.ident = ecuId
        · rw [if_pos h2] at h
          cases h
          exact h2
        · rw [if_neg h2] at h
          exact ih _ _ h
      | none =>
        simp only [hf] at h
        exact ih _ _ h

theorem waitDTCResp_mem (ecuId : Nat) :
    ∀ evs t f, waitDTCResp ecuId evs t = some f →
      ∃ ev ∈ evs, ev.frame = some f := by
  intro evs
  induction evs with
  | nil => intro t f h; simp [waitDTCResp] at h
  | cons ev rest ih =>
    intro t f h
    by_cases h1 : 1000 ≤ t
    · simp [waitDTCResp, h1] at h
    · simp only [waitDTCResp, if_neg h1] at h
      cases hf : ev.frame with
      | some g =>
        simp only [hf] at h
        by_cases h2 : g.ident = ecuId
        · rw [if_pos h2] at h
          cases h
          exact ⟨ev, List.mem_cons_self _ _, hf⟩
        · rw [if_neg h2] at h
          obtain ⟨ev2, hmem, hfr⟩ := ih _ _ h
          exact ⟨ev2, List.mem_cons_of_mem _ hmem, hfr⟩
      | none =>
        simp only [hf] at h
        obtain ⟨ev2, hmem, hfr⟩ := ih _ _ h
        exact ⟨ev2, List.mem_cons_of_mem _ hmem, hfr⟩

/-- The wait stops at the first matching frame: later events never change the
outcome. -/
theorem waitDTCResp_append_of_some (ecuId : Nat) (suf : List RxEv) :
    ∀ evs t f, waitDTCResp ecuId evs t = some f →
      waitDTCResp ecuId (evs ++ suf) t = some f := by
  intro evs
  induction evs with
  | nil => intro t f h; simp [waitDTCResp] at h
  | cons ev rest ih =>
    intro t f h
    by_cases h1 : 1000 ≤ t
    · simp [waitDTCResp, h1] at h
    · simp only [waitDTCResp, if_neg h1, List.cons_append] at h ⊢
      cases hf : ev.frame with
      | some g =>
        simp only [hf] at h ⊢
        by_cases h2 : g.ident = ecuId
        · rw [if_pos h2] at h ⊢
          exact h
        · rw [if_neg h2] at h ⊢
          exact ih _ _ h
      | none =>
        simp only [hf] at h ⊢
        exact ih _ _ h

/-- Each parse loop call yields at most one code per iteration, advancing two
bytes, so at most `(len - i) / 2` codes from offset `i`. -/
theorem parseDTCGo_length_le (data : List Nat) (len ecuId : Nat) :
    ∀ fuel i, (parseDTCGo data len ecuId fuel i).length ≤ (len - i) / 2 := by
  intro fuel
  induction fuel with
  | zero => intro i; simp [parseDTCGo]
  | succ f ih =>
    intro i
    simp only [parseDTCGo]
    split
    · rw [List.length_append]
      have h1 : (Option.toList (decodePair (data.getD i 0) (data.getD (i + 1) 0) ecuId)).length ≤ 1 := by
        cases decodePair (data.getD i 0) (data.getD (i + 1) 0) ecuId <;> simp
      have h2 := ih (i + 2)
      omega
    · simp

/-- An 8-byte (or shorter) payload decodes to at most 3 codes. -/
theorem parseAndStoreDTC_length_le (data : List Nat) (len ecuId : Nat)
    (h : len ≤ 8) : (parseAndStoreDTC data len ecuId).length ≤ 3 := by
  have := parseDTCGo_length_le data len ecuId len 2
  unfold parseAndStoreDTC
  omega

/-! ## Orchestrator (`performDiagnosticScan`, main.cpp lines 751-809) -/

/-- Terminal scan status, read off the three return paths of
`performDiagnosticScan`. -/
inductive ScanStatus
  | NoVehicleDetected
  | TimedOut
  | Completed
  deriving DecidableEq

/-- The phases of one scan, in source order. -/
inductive ScanPhase
  | BaudDetect
  | Sniff
  | Probe
  | DTCCollect
  deriving DecidableEq

/-- The scan outcome: active ECU response identifiers (in discovery order),
collected fault codes, the vehicle-detected flag, terminal status, the
progress events delivered to `updateScanProgress`, and the phases that
ran. -/
structure ScanReport where
  ecus : List Nat
  codes : List FaultCode
  vehicleDetected : Bool
  status : ScanStatus
  progress : List (String × Nat)
  phasesRun : List ScanPhase
  deriving DecidableEq

/-- Environment of a whole scan: candidate environments for baud detection,
probe environments per address index, and DTC environments per active-ECU
position. -/
structure OrchEnv where
  baud : Nat → CandEnv
  probe : Nat → ProbeEnv
  dtc : Nat → DTCEnv

/-- `listenForCANTraffic(duration_ms)` (main.cpp lines 962-1013): passive
listening whose output influences nothing; the loop runs its window out, so
it consumes its duration argument. -/
def listenForCANTraffic (duration_ms : Nat) : Nat := duration_ms

/-- `performDiagnosticScan()` (main.cpp lines 751-809).  The 45 s deadline is
tested after baud detection (line 772) and after traffic listening (line
789); `vehicleDetected` is set only after the first test passes.  There is no
deadline test between ECU probing and DTC scanning. -/
def performDiagnosticScan (env : OrchEnv) : ScanReport :=
  let det := autoDetectCANBaudRate env.baud
  if det.1 = 0 then
    { ecus := [], codes := [], vehicleDetected := false
      status := ScanStatus.NoVehicleDetected
      progress := [("Detecting vehicle...", 0), ("No vehicle detected", 100)]
      phasesRun := [ScanPhase.BaudDetect] }
  else if TOTAL_SCAN_TIMEOUT_MS < det.2 then
    { ecus := [], codes := [], vehicleDetected := false
      status := ScanStatus.TimedOut
      progress := [("Detecting vehicle...", 0), ("Scan timeout", 100)]
      phasesRun := [ScanPhase.BaudDetect] }
  else if TOTAL_SCAN_TIMEOUT_MS < det.2 + listenForCANTraffic TRAFFIC_LISTEN_TIMEOUT_MS then
    { ecus := [], codes := [], vehicleDetected := true
      status := ScanStatus.TimedOut
      progress := [("Detecting vehicle...", 0), ("Vehicle found! Analyzing...", 25),
        ("Reading vehicle data...", 50), ("Scan timeout", 100)]
      phasesRun := [ScanPhase.BaudDetect, ScanPhase.Sniff] }
  else
    let pr := probeOBD2ECUsWithTimeout env.probe ECU_PROBE_TIMEOUT_MS
    let activeECUs := pr.pairs.map Prod.snd
    { ecus := activeECUs
      codes := scanAllDTCs env.dtc activeECUs
      vehicleDetected := true
      status := ScanStatus.Completed
      progress := [("Detecting vehicle...", 0), ("Vehicle found! Analyzing...", 25),
          ("Reading vehicle data...", 50)]
        ++ pr.progress
        ++ [("Checking systems...", 75), ("Scan complete!", 100)]
      phasesRun := [ScanPhase.BaudDetect, ScanPhase.Sniff, ScanPhase.Probe,
        ScanPhase.DTCCollect] }

/-! ## Claim theorems -/

/-- C1: for every DTC response payload of length `len > 2`, decoding consumes
byte pairs at offsets 2, 4, ... while `i + 1 < len`; a pair with both bytes
zero produces no code; otherwise the category is determined by the top two
bits of `b1` (`00→P`, `01→C`, `10→B`, `11→U`), the 14-bit numeric value is
`((b1 &&& 0x3F) <<< 8) ||| b2`, and the rendered code is the category letter
followed by the upper-cased hexadecimal value (zero-padded to 4 digits by the
5-character padding step).  In particular `(0x01, 0x23)` gives category P and
numeric `0x123`, and `(0x00, 0x00)` gives no code. -/
theorem C1_parseAndStoreDTC_decode :
    (∀ data len ecuId, parseAndStoreDTC data len ecuId
        = (dtcOffsets len).filterMap
            (fun j => decodePair (data.getD j 0) (data.getD (j + 1) 0) ecuId))
    ∧ (∀ len j, j ∈ dtcOffsets len ↔ 2 ≤ j ∧ j % 2 = 0 ∧ j + 1 < len)
    ∧ (∀ ecuId, decodePair 0 0 ecuId = none)
    ∧ (∀ b1 b2 ecuId, ¬(b1 = 0 ∧ b2 = 0) →
        decodePair b1 b2 ecuId = some (mkFaultCode b1 b2 ecuId))
    ∧ (∀ b1, (b1 &&& 0xC0 = 0x00 → dtcCategory b1 = 'P')
        ∧ (b1 &&& 0xC0 = 0x40 → dtcCategory b1 = 'C')
        ∧ (b1 &&& 0xC0 = 0x80 → dtcCategory b1 = 'B')
        ∧ (b1 &&& 0xC0 = 0xC0 → dtcCategory b1 = 'U'))
    ∧ (∀ b1 b2 ecuId, (mkFaultCode b1 b2 ecuId).code = specConventionalRender b1 b2)
    ∧ dtcCodeNumber 0x01 0x23 = 0x123
    ∧ (mkFaultCode 0x01 0x23 0x7E8).code = "P0123"
    ∧ decodePair 0x00 0x00 0x7E8 = none
    ∧ parseAndStoreDTC [0x05, 0x43, 0x01, 0x23, 0x00, 0x00, 0x00, 0x00] 8 0x7E8
        = [mkFaultCode 0x01 0x23 0x7E8] := by
  refine ⟨?_, ?_, ?_, ?_, ?_, ?_, by decide, by decide, by decide, by decide⟩
  · intro data len ecuId
    exact parseDTCGo_eq_filterMap data len ecuId len 2
  · intro len j
    have := dtcOffsetsGo_mem len len 2 j (by omega) (by omega)
    unfold dtcOffsets
    exact this
  · intro ecuId
    simp [decodePair]
  · intro b1 b2 ecuId h
    simp [decodePair, h]
  · intro b1
    refine ⟨fun h => ?_, fun h => ?_, fun h => ?_, fun h => ?_⟩ <;>
      simp [dtcCategory, h]
  · intro b1 b2 ecuId
    exact renderDTCCode_eq_conventional b1 b2

/-- C1 witness: the decode facts instantiated at the concrete pair
`(0x43, 0x10)` (category C, value `0x310`) and at offset 2 of an 8-byte
payload. -/
theorem C1_witness :
    decodePair 0x43 0x10 0x7E8 = some (mkFaultCode 0x43 0x10 0x7E8)
    ∧ dtcCategory 0x43 = 'C'
    ∧ (2 ∈ dtcOffsets 8 ↔ 2 ≤ 2 ∧ 2 % 2 = 0 ∧ 2 + 1 < 8) :=
  ⟨C1_parseAndStoreDTC_decode.2.2.2.1 0x43 0x10 0x7E8 (by decide),
    (C1_parseAndStoreDTC_decode.2.2.2.2.1 0x43).2.1 (by decide),
    C1_parseAndStoreDTC_decode.2.1 8 2⟩

/-- C8 counterexample: the claim asserts some decodable byte pair renders
differently from the conventional 4-hex-digit left-zero-padded form; in fact
no such pair exists — the insert-after-first-character padding is
extensionally the conventional padding. -/
theorem C8_counterexample :
    ¬ ∃ b1 b2 : Nat, b1 < 256 ∧ b2 < 256 ∧ ¬(b1 = 0 ∧ b2 = 0) ∧
      renderDTCCode b1 b2 ≠ specConventionalRender b1 b2 := by
  rintro ⟨b1, b2, -, -, -, hne⟩
  exact hne (renderDTCCode_eq_conventional b1 b2)

/-- C8 (amended): the padding step, though implemented by repeatedly
inserting a zero after the first character, renders every decodable byte pair
identically to the category letter followed by the value's conventional
4-hex-digit left-zero-padded upper-case representation. -/
theorem C8_padding_amended (b1 b2 : Nat) (h1 : b1 < 256) (h2 : b2 < 256)
    (h3 : ¬(b1 = 0 ∧ b2 = 0)) :
    renderDTCCode b1 b2 = specConventionalRender b1 b2 :=
  renderDTCCode_eq_conventional b1 b2

/-- C8 witness: the amended equality at the concrete pair `(0x01, 0x23)`. -/
theorem C8_witness :
    (0x01 : Nat) < 256 ∧ (0x23 : Nat) < 256 ∧ ¬((0x01 : Nat) = 0 ∧ (0x23 : Nat) = 0) ∧
      renderDTCCode 0x01 0x23 = specConventionalRender 0x01 0x23 :=
  ⟨by decide, by decide, by decide,
    C8_padding_amended 0x01 0x23 (by decide) (by decide) (by decide)⟩

/-- A baud environment with instant triple activity at 500000 bps. -/
def baudEnvFast : Nat → CandEnv := fun b =>
  if b = 500000 then ⟨true, [⟨0, true⟩, ⟨0, true⟩, ⟨0, true⟩]⟩ else ⟨true, []⟩

/-- A baud environment with no activity anywhere (reconfigure fails). -/
def baudEnvNone : Nat → CandEnv := fun _ => ⟨false, []⟩

/-- C2: baud detection tries 500000, 250000, 125000, 1000000 in that fixed
order; a candidate is detected as soon as its window sees 3 frames (the rest
of the window is not consumed); a reconfigure failure aborts only that
candidate; if every candidate sees fewer than 3 frames the result is 0
(no activity). -/
theorem C2_autoDetectCANBaudRate_spec :
    (∀ env : Nat → CandEnv, (autoDetectCANBaudRate env).1
        = (if (tryBaud (env 500000)).1 then 500000
           else if (tryBaud (env 250000)).1 then 250000
           else if (tryBaud (env 125000)).1 then 125000
           else if (tryBaud (env 1000000)).1 then 1000000
           else 0))
    ∧ (∀ pre suf t cnt, (pollWindow pre t cnt).1 = true →
        pollWindow (pre ++ suf) t cnt = pollWindow pre t cnt)
    ∧ (∀ evs t cnt, (pollWindow evs t cnt).1 = true →
        3 ≤ cnt + evs.countP (fun ev => ev.got))
    ∧ (∀ e : CandEnv, e.reinitOk = false → tryBaud e = (false, 0))
    ∧ (∀ env : Nat → CandEnv,
        (∀ b ∈ baudCandidates, (tryBaud (env b)).1 = false) →
        (autoDetectCANBaudRate env).1 = 0) := by
  refine ⟨?_, fun pre suf => pollWindow_append_of_true suf pre, pollWindow_true_count, ?_, ?_⟩
  · intro env
    simp only [autoDetectCANBaudRate, baudCandidates, detectFrom]
    split_ifs <;> rfl
  · intro e h
    simp [tryBaud, h]
  · intro env hall
    have h1 := hall 500000 (by decide)
    have h2 := hall 250000 (by decide)
    have h3 := hall 125000 (by decide)
    have h4 := hall 1000000 (by decide)
    simp [autoDetectCANBaudRate, baudCandidates, detectFrom, h1, h2, h3, h4]

/-- C2 witness: the early-exit, frame-count, reconfigure-failure and
no-activity conjuncts at concrete inputs. -/
theorem C2_witness :
    pollWindow (([⟨0, true⟩, ⟨0, true⟩, ⟨0, true⟩] : List PollEv) ++ [⟨0, false⟩]) 0 0
        = pollWindow ([⟨0, true⟩, ⟨0, true⟩, ⟨0, true⟩] : List PollEv) 0 0
    ∧ 3 ≤ 0 + List.countP (fun ev => ev.got) ([⟨0, true⟩, ⟨0, true⟩, ⟨0, true⟩] : List PollEv)
    ∧ tryBaud ⟨false, []⟩ = (false, 0)
    ∧ (autoDetectCANBaudRate baudEnvNone).1 = 0 :=
  ⟨C2_autoDetectCANBaudRate_spec.2.1
      ([⟨0, true⟩, ⟨0, true⟩, ⟨0, true⟩] : List PollEv) [⟨0, false⟩] 0 0 (by decide),
    C2_autoDetectCANBaudRate_spec.2.2.1
      ([⟨0, true⟩, ⟨0, true⟩, ⟨0, true⟩] : List PollEv) 0 0 (by decide),
    C2_autoDetectCANBaudRate_spec.2.2.2.1 ⟨false, []⟩ rfl,
    C2_autoDetectCANBaudRate_spec.2.2.2.2 baudEnvNone (by decide)⟩

/-- A probe environment in which the probe of address index 0 (request
0x7E0) receives a frame with identifier 0x7EF, which the range disjunct of
the qualifying test accepts. -/
def probeEnvRange : Nat → ProbeEnv := fun i =>
  if i = 0 then ⟨true, 0, [⟨0, some ⟨0x7EF, []⟩⟩]⟩ else ⟨false, 0, []⟩

/-- C3 counterexample: probing request 0x7E0 records response 0x7EF (accepted
by the 0x7E8..0x7EF range disjunct), and `0x7EF - 8 ≠ 0x7E0`: the round-trip
`response - 8 == request` fails for this recorded entry. -/
theorem C3_counterexample :
    (probeOBD2ECUsWithTimeout probeEnvRange 15000).pairs = [(0x7E0, 0x7EF)]
    ∧ ¬((0x7EF : Nat) - 8 = 0x7E0) :=
  ⟨by decide, by decide⟩

/-- C3 (amended): every entry recorded in the active-ECU set satisfies the
qualifying test that admitted it: its response identifier either equals the
probed request plus 8, or lies in the functional-response range
0x7E8..0x7EF (in which case the round-trip to the probed request can
fail). -/
theorem C3_roundtrip_amended (env : Nat → ProbeEnv) (timeout_ms req resp : Nat)
    (h : (req, resp) ∈ (probeOBD2ECUsWithTimeout env timeout_ms).pairs) :
    resp = req + 8 ∨ (0x7E8 ≤ resp ∧ resp ≤ 0x7EF) := by
  have hp := probeLoopGo_pairs env timeout_ms NUM_ECUS 0 0
  have hdef : probeOBD2ECUsWithTimeout env timeout_ms
      = probeLoopGo env timeout_ms NUM_ECUS 0 0 := rfl
  rw [hdef, hp, List.mem_filterMap] at h
  obtain ⟨i, _, hfd⟩ := h
  have hq := (probeFound_qualifies env i req resp hfd).2
  simp only [probeQualifies, Bool.or_eq_true, Bool.and_eq_true,
    decide_eq_true_eq] at hq
  exact hq

/-- C3 witness: the amended disjunction at the recorded entry
`(0x7E0, 0x7EF)` of the counterexample environment. -/
theorem C3_witness :
    (0x7E0, 0x7EF) ∈ (probeOBD2ECUsWithTimeout probeEnvRange 15000).pairs
    ∧ ((0x7EF : Nat) = 0x7E0 + 8 ∨ (0x7E8 ≤ (0x7EF : Nat) ∧ (0x7EF : Nat) ≤ 0x7EF)) :=
  ⟨by decide, C3_roundtrip_amended probeEnvRange 15000 0x7E0 0x7EF (by decide)⟩

/-- A probe environment in which address indices 0 and 1 (requests 0x7E0 and
0x7E1) both receive a frame with identifier 0x7E8. -/
def probeEnvDup : Nat → ProbeEnv := fun i =>
  if i ≤ 1 then ⟨true, 0, [⟨0, some ⟨0x7E8, []⟩⟩]⟩ else ⟨false, 0, []⟩

/-- C4 counterexample: two different probed addresses record the same
response identifier 0x7E8, so the active-ECU list contains a duplicate —
there is no deduplication in the source. -/
theorem C4_counterexample :
    (probeOBD2ECUsWithTimeout probeEnvDup 15000).pairs.map Prod.snd = [0x7E8, 0x7E8]
    ∧ ¬((probeOBD2ECUsWithTimeout probeEnvDup 15000).pairs.map Prod.snd).Nodup :=
  ⟨by decide, by decide⟩

/-- C4 (amended): after any scan invocation, each probed address records at
most one entry and insertion order equals probe order — the probed requests
of the recorded entries form a duplicate-free sublist of the address table —
but the recorded response identifiers themselves may contain duplicates
across addresses. -/
theorem C4_probe_order_amended (env : Nat → ProbeEnv) (timeout_ms : Nat) :
    List.Sublist ((probeOBD2ECUsWithTimeout env timeout_ms).pairs.map Prod.fst)
      OBD2_ADDRESSES
    ∧ ((probeOBD2ECUsWithTimeout env timeout_ms).pairs.map Prod.fst).Nodup := by
  have hp := probeLoopGo_pairs env timeout_ms NUM_ECUS 0 0
  have hle := probeLoopGo_probed_le env timeout_ms NUM_ECUS 0 0
  have hdef : probeOBD2ECUsWithTimeout env timeout_ms
      = probeLoopGo env timeout_ms NUM_ECUS 0 0 := rfl
  have hsub : List.Sublist ((probeOBD2ECUsWithTimeout env timeout_ms).pairs.map Prod.fst)
      OBD2_ADDRESSES := by
    rw [hdef, hp]
    have := filterMap_probeFound_sublist env
      ((probeLoopGo env timeout_ms NUM_ECUS 0 0).probed - 0) 0 (by omega)
    simpa using this
  exact ⟨hsub, List.Nodup.sublist hsub (by decide)⟩

/-- A probe environment in which every probe's response wait runs long, so
the 15 s budget is exceeded after two probes. -/
def probeEnvSlow : Nat → ProbeEnv := fun _ => ⟨true, 0, [⟨9000, none⟩]⟩

/-- C5: discovery with its 15 s sub-deadline stops at some index `probed`:
the recorded pairs are exactly the finds among indices `0..probed-1`; at most
all 16 addresses are probed; every probed index passed the budget check; an
early stop means the budget was exceeded there; elapsed time is the sum of
the probed steps; and the result never consults the environment beyond the
stopping index (no address beyond it is probed, none twice, no entry
lost). -/
theorem C5_discovery_deadline (env : Nat → ProbeEnv) (timeout_ms : Nat) :
    (probeOBD2ECUsWithTimeout env timeout_ms).pairs
        = (List.range (probeOBD2ECUsWithTimeout env timeout_ms).probed).filterMap
            (probeFound env)
    ∧ (probeOBD2ECUsWithTimeout env timeout_ms).probed ≤ NUM_ECUS
    ∧ (∀ j, j < (probeOBD2ECUsWithTimeout env timeout_ms).probed →
        probeElapsed env j ≤ timeout_ms)
    ∧ ((probeOBD2ECUsWithTimeout env timeout_ms).probed < NUM_ECUS →
        timeout_ms < probeElapsed env (probeOBD2ECUsWithTimeout env timeout_ms).probed)
    ∧ (probeOBD2ECUsWithTimeout env timeout_ms).dur
        = probeElapsed env (probeOBD2ECUsWithTimeout env timeout_ms).probed
    ∧ (∀ env2 : Nat → ProbeEnv,
        (∀ j, j < (probeOBD2ECUsWithTimeout env timeout_ms).probed → env2 j = env j) →
        probeOBD2ECUsWithTimeout env2 timeout_ms
          = probeOBD2ECUsWithTimeout env timeout_ms) := by
  have hdef : probeOBD2ECUsWithTimeout env timeout_ms
      = probeLoopGo env timeout_ms NUM_ECUS 0 0 := rfl
  have hchecks := probeLoopGo_checks env timeout_ms NUM_ECUS 0
  refine ⟨?_, ?_, ?_, ?_, ?_, ?_⟩
  · rw [hdef, probeLoopGo_pairs env timeout_ms NUM_ECUS 0 0]
    rw [Nat.sub_zero, List.range_eq_range']
  · rw [hdef]
    have := probeLoopGo_probed_le env timeout_ms NUM_ECUS 0 0
    omega
  · intro j hj
    exact hchecks.1 j (Nat.zero_le j) hj
  · intro h
    exact hchecks.2 h
  · rw [hdef]
    exact probeLoopGo_dur env timeout_ms NUM_ECUS 0
  · intro env2 hagree
    rw [hdef]
    exact probeLoopGo_env_congr env env2 timeout_ms NUM_ECUS 0 0
      (fun j _ hj => hagree j hj)

/-- C5 witness: with 9-second waits the budget is exceeded after two probes;
the probed indices passed the check, the stop index exceeded it, and the
result ignores the environment beyond the stop index. -/
theorem C5_witness :
    probeElapsed probeEnvSlow 1 ≤ 15000
    ∧ 15000 < probeElapsed probeEnvSlow (probeOBD2ECUsWithTimeout probeEnvSlow 15000).probed
    ∧ probeOBD2ECUsWithTimeout probeEnvSlow 15000
        = probeOBD2ECUsWithTimeout probeEnvSlow 15000 :=
  ⟨(C5_discovery_deadline probeEnvSlow 15000).2.2.1 1 (by decide),
    (C5_discovery_deadline probeEnvSlow 15000).2.2.2.1 (by decide),
    (C5_discovery_deadline probeEnvSlow 15000).2.2.2.2.2 probeEnvSlow (fun _ _ => rfl)⟩

/-- A DTC environment in which no frames arrive for any ECU. -/
def dtcEnvNone : Nat → DTCEnv := fun _ => ⟨true, []⟩

/-- A probe environment in which every transmit fails (each probe still
consumes its 50 ms pause). -/
def probeEnvNoTx : Nat → ProbeEnv := fun _ => ⟨false, 0, []⟩

/-- A baud environment whose third frame at 500000 bps arrives only after a
40-second receive, so detection succeeds having consumed 40 s. -/
def baudEnvSlow : Nat → CandEnv := fun b =>
  if b = 500000 then ⟨true, [⟨0, true⟩, ⟨0, true⟩, ⟨40000, true⟩]⟩ else ⟨true, []⟩

/-- A baud environment whose detection succeeds only after 46 s — past the
aggregate deadline. -/
def baudEnvVerySlow : Nat → CandEnv := fun b =>
  if b = 500000 then ⟨true, [⟨0, true⟩, ⟨0, true⟩, ⟨46000, true⟩]⟩ else ⟨true, []⟩

/-- Scan environment: detection consumes 40 s, so the aggregate deadline
passes during discovery, before DTC collection starts. -/
def orchEnvLate : OrchEnv := ⟨baudEnvSlow, probeEnvNoTx, dtcEnvNone⟩

/-- Scan environment: detection alone exceeds the aggregate deadline. -/
def orchEnvTimeout : OrchEnv := ⟨baudEnvVerySlow, probeEnvNoTx, dtcEnvNone⟩

/-- C6 counterexample: in a scan where the aggregate deadline has already
passed when DTC collection would start (elapsed 40000 + 5000 + 800 ms >
45000 ms), the collection phase still runs and the scan ends `Completed` —
there is no deadline check at the discovery/collection phase boundary, so the
claim that the deadline is checked at every boundary (and that no phase
starts past the deadline, yielding `TimedOut`) fails. -/
theorem C6_counterexample :
    (performDiagnosticScan orchEnvLate).status = ScanStatus.Completed
    ∧ (performDiagnosticScan orchEnvLate).phasesRun
        = [ScanPhase.BaudDetect, ScanPhase.Sniff, ScanPhase.Probe, ScanPhase.DTCCollect]
    ∧ TOTAL_SCAN_TIMEOUT_MS
        < (autoDetectCANBaudRate orchEnvLate.baud).2
          + listenForCANTraffic TRAFFIC_LISTEN_TIMEOUT_MS
          + (probeOBD2ECUsWithTimeout orchEnvLate.probe ECU_PROBE_TIMEOUT_MS).dur :=
  ⟨by decide, by decide, by decide⟩

/-- C6 (amended): the orchestrator checks the 45 s aggregate deadline at
exactly two phase boundaries — after baud detection and after traffic
listening.  A phase in progress runs to completion; a deadline exceedance at
one of the two checks ends the scan `TimedOut` with the (empty) partial data
gathered so far; but the discovery/collection boundary is unchecked: once
traffic listening passes its check, discovery and DTC collection always run
and the scan ends `Completed` regardless of the time they consume. -/
theorem C6_deadline_amended (env : OrchEnv) :
    ((autoDetectCANBaudRate env.baud).1 = 0 →
      performDiagnosticScan env
        = ⟨[], [], false, ScanStatus.NoVehicleDetected,
            [("Detecting vehicle...", 0), ("No vehicle detected", 100)],
            [ScanPhase.BaudDetect]⟩)
    ∧ ((autoDetectCANBaudRate env.baud).1 ≠ 0 →
        TOTAL_SCAN_TIMEOUT_MS < (autoDetectCANBaudRate env.baud).2 →
      performDiagnosticScan env
        = ⟨[], [], false, ScanStatus.TimedOut,
            [("Detecting vehicle...", 0), ("Scan timeout", 100)],
            [ScanPhase.BaudDetect]⟩)
    ∧ ((autoDetectCANBaudRate env.baud).1 ≠ 0 →
        (autoDetectCANBaudRate env.baud).2 ≤ TOTAL_SCAN_TIMEOUT_MS →
        TOTAL_SCAN_TIMEOUT_MS
          < (autoDetectCANBaudRate env.baud).2 + TRAFFIC_LISTEN_TIMEOUT_MS →
      performDiagnosticScan env
        = ⟨[], [], true, ScanStatus.TimedOut,
            [("Detecting vehicle...", 0), ("Vehicle found! Analyzing...", 25),
              ("Reading vehicle data...", 50), ("Scan timeout", 100)],
            [ScanPhase.BaudDetect, ScanPhase.Sniff]⟩)
    ∧ ((autoDetectCANBaudRate env.baud).1 ≠ 0 →
        (autoDetectCANBaudRate env.baud).2 + TRAFFIC_LISTEN_TIMEOUT_MS
          ≤ TOTAL_SCAN_TIMEOUT_MS →
      (performDiagnosticScan env).status = ScanStatus.Completed
      ∧ (performDiagnosticScan env).phasesRun
          = [ScanPhase.BaudDetect, ScanPhase.Sniff, ScanPhase.Probe, ScanPhase.DTCCollect]
      ∧ (performDiagnosticScan env).ecus
          = (probeOBD2ECUsWithTimeout env.probe ECU_PROBE_TIMEOUT_MS).pairs.map Prod.snd
      ∧ (performDiagnosticScan env).codes
          = scanAllDTCs env.dtc
              ((probeOBD2ECUsWithTimeout env.probe ECU_PROBE_TIMEOUT_MS).pairs.map Prod.snd)) := by
  refine ⟨?_, ?_, ?_, ?_⟩
  · intro h0
    simp only [performDiagnosticScan, listenForCANTraffic]
    rw [if_pos h0]
  · intro h0 h1
    simp only [performDiagnosticScan, listenForCANTraffic]
    rw [if_neg h0, if_pos h1]
  · intro h0 h1 h2
    simp only [performDiagnosticScan, listenForCANTraffic]
    rw [if_neg h0, if_neg (by omega), if_pos h2]
  · intro h0 h1
    simp only [performDiagnosticScan, listenForCANTraffic]
    rw [if_neg h0, if_neg (by omega), if_neg (by omega)]
    exact ⟨rfl, rfl, rfl, rfl⟩

/-- C6 witness: the completed-past-deadline case at `orchEnvLate` and the
timed-out-at-first-check case at `orchEnvTimeout`. -/
theorem C6_witness :
    ((performDiagnosticScan orchEnvLate).status = ScanStatus.Completed
      ∧ (performDiagnosticScan orchEnvLate).phasesRun
          = [ScanPhase.BaudDetect, ScanPhase.Sniff, ScanPhase.Probe, ScanPhase.DTCCollect]
      ∧ (performDiagnosticScan orchEnvLate).ecus
          = (probeOBD2ECUsWithTimeout orchEnvLate.probe ECU_PROBE_TIMEOUT_MS).pairs.map Prod.snd
      ∧ (performDiagnosticScan orchEnvLate).codes
          = scanAllDTCs orchEnvLate.dtc
              ((probeOBD2ECUsWithTimeout orchEnvLate.probe ECU_PROBE_TIMEOUT_MS).pairs.map Prod.snd))
    ∧ performDiagnosticScan orchEnvTimeout
        = ⟨[], [], false, ScanStatus.TimedOut,
            [("Detecting vehicle...", 0), ("Scan timeout", 100)],
            [ScanPhase.BaudDetect]⟩ :=
  ⟨(C6_deadline_amended orchEnvLate).2.2.2 (by decide) (by decide),
    (C6_deadline_amended orchEnvTimeout).2.1 (by decide) (by decide)⟩

/-- C7: in DTC collection, an ECU whose wait yields no frame with its own
response identifier within the 1 s window contributes zero codes; a response
whose payload length is 2 or less also contributes zero codes; a trace with
no matching frame yields no response; and collection always continues with
the next ECU (the per-ECU results are concatenated, no error path exists). -/
theorem C7_dtc_error_handling :
    (∀ (e : DTCEnv) ecuId, waitDTCResp ecuId e.events 0 = none →
        scanOneECU e ecuId = [])
    ∧ (∀ (e : DTCEnv) ecuId f, waitDTCResp ecuId e.events 0 = some f →
        f.data.length ≤ 2 → scanOneECU e ecuId = [])
    ∧ (∀ ecuId evs t, (∀ ev ∈ evs, ∀ f, ev.frame = some f → f.ident ≠ ecuId) →
        waitDTCResp ecuId evs t = none)
    ∧ (∀ (env : Nat → DTCEnv) i ecuId rest,
        scanDTCsFrom env i (ecuId :: rest)
          = scanOneECU (env i) ecuId ++ scanDTCsFrom env (i + 1) rest) := by
  refine ⟨?_, ?_, ?_, fun env i ecuId rest => rfl⟩
  · intro e ecuId h
    by_cases ht : e.txOk = true
    · simp [scanOneECU, ht, h]
    · simp [scanOneECU, ht]
  · intro e ecuId f h hlen
    by_cases ht : e.txOk = true
    · have heq : scanOneECU e ecuId
          = if 2 < f.data.length then parseAndStoreDTC f.data f.data.length ecuId
            else [] := by
        simp [scanOneECU, ht, h]
      rw [heq, if_neg (show ¬2 < f.data.length by omega)]
    · simp [scanOneECU, ht]
  · intro ecuId evs
    induction evs with
    | nil => intro t _; rfl
    | cons ev rest ih =>
      intro t hno
      by_cases h1 : 1000 ≤ t
      · simp [waitDTCResp, h1]
      · simp only [waitDTCResp, if_neg h1]
        cases hf : ev.frame with
        | some g =>
          simp only [hf]
          rw [if_neg (hno ev (List.mem_cons_self _ _) g hf)]
          exact ih _ (fun ev2 hm => hno ev2 (List.mem_cons_of_mem _ hm))
        | none =>
          simp only [hf]
          exact ih _ (fun ev2 hm => hno ev2 (List.mem_cons_of_mem _ hm))

/-- A DTC environment whose only frame carries a foreign identifier. -/
def dtcEnvSilent : DTCEnv := ⟨true, [⟨0, some ⟨0x123, [1, 2, 3]⟩⟩]⟩

/-- A DTC environment answering with a 2-byte (too short) payload. -/
def dtcEnvShort : DTCEnv := ⟨true, [⟨0, some ⟨0x7E8, [0x01, 0x43]⟩⟩]⟩

/-- C7 witness: a foreign-identifier trace yields zero codes, a short payload
yields zero codes, the foreign trace yields no response, and collection
concatenates per-ECU results. -/
theorem C7_witness :
    scanOneECU dtcEnvSilent 0x7E8 = []
    ∧ scanOneECU dtcEnvShort 0x7E8 = []
    ∧ waitDTCResp 0x7E8 dtcEnvSilent.events 0 = none
    ∧ scanDTCsFrom (fun _ => dtcEnvSilent) 0 [0x7E8]
        = scanOneECU dtcEnvSilent 0x7E8 ++ scanDTCsFrom (fun _ => dtcEnvSilent) 1 [] :=
  ⟨C7_dtc_error_handling.1 dtcEnvSilent 0x7E8 (by decide),
    C7_dtc_error_handling.2.1 dtcEnvShort 0x7E8 ⟨0x7E8, [0x01, 0x43]⟩ (by decide) (by decide),
    C7_dtc_error_handling.2.2.1 0x7E8 dtcEnvSilent.events 0 (by
      intro ev hev f hf
      simp only [dtcEnvSilent, List.mem_singleton] at hev
      rw [hev] at hf
      cases hf
      decide),
    C7_dtc_error_handling.2.2.2 (fun _ => dtcEnvSilent) 0 0x7E8 []⟩

/-- Scan environment with instant detection and no ECU responses. -/
def orchEnvFast : OrchEnv := ⟨baudEnvFast, probeEnvNoTx, dtcEnvNone⟩

/-- C9 counterexample: a completed scan delivers the progress event
`("Checking ECU 5/16", 56)` — percentage 56 is none of the five claimed
milestones 0, 25, 50, 75, 100, so progress is not delivered only at those
five percentages. -/
theorem C9_counterexample :
    ("Checking ECU 5/16", 56) ∈ (performDiagnosticScan orchEnvFast).progress
    ∧ (56 : Nat) ∉ ([0, 25, 50, 75, 100] : List Nat) :=
  ⟨by decide, by decide⟩

/-- C9 (amended): the orchestrator itself emits the five fixed milestones
0, 25, 50, 75, 100 with phase-specific messages, in order; in addition the
discovery phase emits an intermediate update every fourth probed address at
percentage `50 + k * 25 / 16` (that is 50, 56, 62, 68), interleaved between
the 50 and 75 milestones. -/
theorem C9_progress_amended (env : OrchEnv)
    (h0 : (autoDetectCANBaudRate env.baud).1 ≠ 0)
    (h1 : (autoDetectCANBaudRate env.baud).2 + TRAFFIC_LISTEN_TIMEOUT_MS
      ≤ TOTAL_SCAN_TIMEOUT_MS) :
    (performDiagnosticScan env).progress
        = [("Detecting vehicle...", 0), ("Vehicle found! Analyzing...", 25),
            ("Reading vehicle data...", 50)]
          ++ (probeOBD2ECUsWithTimeout env.probe ECU_PROBE_TIMEOUT_MS).progress
          ++ [("Checking systems...", 75), ("Scan complete!", 100)]
    ∧ (∀ ev ∈ (probeOBD2ECUsWithTimeout env.probe ECU_PROBE_TIMEOUT_MS).progress,
        ∃ k, k < NUM_ECUS ∧ k % 4 = 0 ∧
          ev = (probeProgressMsg k, 50 + k * 25 / NUM_ECUS)) := by
  constructor
  · simp only [performDiagnosticScan, listenForCANTraffic]
    rw [if_neg h0, if_neg (by omega), if_neg (by omega)]
  · exact probeLoopGo_progress env.probe ECU_PROBE_TIMEOUT_MS NUM_ECUS 0 0 (by omega)

/-- C9 witness: the amended progress shape at a concrete completed scan. -/
theorem C9_witness :
    (performDiagnosticScan orchEnvFast).progress
        = [("Detecting vehicle...", 0), ("Vehicle found! Analyzing...", 25),
            ("Reading vehicle data...", 50)]
          ++ (probeOBD2ECUsWithTimeout orchEnvFast.probe ECU_PROBE_TIMEOUT_MS).progress
          ++ [("Checking systems...", 75), ("Scan complete!", 100)] :=
  (C9_progress_amended orchEnvFast (by decide) (by decide)).1

/-- C10: per active ECU, the wait stops at the first frame carrying the
ECU's response identifier (later events never change the outcome), and with
CAN payloads of at most 8 bytes a single decoded frame contributes at most 3
codes per scan invocation. -/
theorem C10_single_frame_decode :
    (∀ (e : DTCEnv) ecuId,
        (∀ ev ∈ e.events, ∀ f, ev.frame = some f → f.data.length ≤ 8) →
        (scanOneECU e ecuId).length ≤ 3)
    ∧ (∀ ecuId evs suf t f, waitDTCResp ecuId evs t = some f →
        waitDTCResp ecuId (evs ++ suf) t = some f) := by
  constructor
  · intro e ecuId hdlc
    by_cases ht : e.txOk = true
    · cases hw : waitDTCResp ecuId e.events 0 with
      | some f =>
        obtain ⟨ev, hmem, hfr⟩ := waitDTCResp_mem ecuId e.events 0 f hw
        have hlen : f.data.length ≤ 8 := hdlc ev hmem f hfr
        have heq : scanOneECU e ecuId
            = if 2 < f.data.length then parseAndStoreDTC f.data f.data.length ecuId
              else [] := by
          simp [scanOneECU, ht, hw]
        rw [heq]
        by_cases h2 : 2 < f.data.length
        · rw [if_pos h2]
          exact parseAndStoreDTC_length_le f.data f.data.length ecuId hlen
        · rw [if_neg h2]
          simp
      | none => simp [scanOneECU, ht, hw]
    · simp [scanOneECU, ht]
  · intro ecuId evs suf t f h
    exact waitDTCResp_append_of_some ecuId suf evs t f h

/-- A DTC environment answering with a full 8-byte payload encoding three
codes. -/
def dtcEnvFull : DTCEnv :=
  ⟨true, [⟨0, some ⟨0x7E8, [0x43, 0x01, 0x23, 0x45, 0x67, 0x89, 0xAB, 0xCD]⟩⟩]⟩

/-- C10 witness: the 3-code bound at a concrete 8-byte response, and the
first-matching-frame stop with a concrete appended suffix. -/
theorem C10_witness :
    (scanOneECU dtcEnvFull 0x7E8).length ≤ 3
    ∧ waitDTCResp 0x7E8 (dtcEnvFull.events ++ [⟨0, some ⟨0x7E8, []⟩⟩]) 0
        = some ⟨0x7E8, [0x43, 0x01, 0x23, 0x45, 0x67, 0x89, 0xAB, 0xCD]⟩ :=
  ⟨C10_single_frame_decode.1 dtcEnvFull 0x7E8 (by
      intro ev hev f hf
      simp only [dtcEnvFull, List.mem_singleton] at hev
      rw [hev] at hf
      cases hf
      decide),
    C10_single_frame_decode.2 0x7E8 dtcEnvFull.events [⟨0, some ⟨0x7E8, []⟩⟩] 0
      ⟨0x7E8, [0x43, 0x01, 0x23, 0x45, 0x67, 0x89, 0xAB, 0xCD]⟩ (by decide)⟩

end OBD2Kiosk
